import Mathlib

/-!
Shallow embedding of the 4layers.earth timeline/data-cache subsystem:
`ValueInterpolator` (src/public/utils/AnimationUtils.js), `CacheManager`
(src/public/services/CacheManager.js), `GroundDataManager`
(src/public/services/GroundDataManager.js), `GroundLayerState`
(src/public/services/GroundLayerState.js) and the `Timeline` gesture engine
(src/public/components/Timeline.js).  JS numbers are modelled as rationals,
timestamps as epoch milliseconds (naturals), JS `Map`s as association lists
with insertion-order semantics.
-/

/-- JS `Math.round`: round half toward positive infinity. -/
def jsRound (q : ℚ) : ℤ := ⌊q + 1/2⌋

/-- Pressure trend enumeration of a ground-data sample. -/
inductive Trend where
  | rising
  | falling
  | steady
deriving DecidableEq, Repr

/-- `metrics.temperature` of a GroundData sample. -/
structure Temperature where
  current : ℚ
  feelsLike : ℚ
  min24h : ℚ
  max24h : ℚ
deriving DecidableEq, Repr

/-- `metrics.pressure` of a GroundData sample. -/
structure Pressure where
  current : ℚ
  seaLevel : ℚ
  trend : Trend
deriving DecidableEq, Repr

/-- `metrics` of a GroundData sample. -/
structure Metrics where
  temperature : Temperature
  humidity : ℚ
  pressure : Pressure
deriving DecidableEq, Repr

/-- `conditions` of a GroundData sample. -/
structure Conditions where
  description : String
  icon : String
deriving DecidableEq, Repr

/-- Geographic location `{lat, lon}`. -/
structure Location where
  lat : ℚ
  lon : ℚ
deriving DecidableEq, Repr

/-- A GroundData sample; `timestamp` is epoch milliseconds. -/
structure GroundData where
  timestamp : ℕ
  location : Location
  metrics : Metrics
  conditions : Conditions
deriving DecidableEq, Repr

namespace ValueInterpolator

/-- `ValueInterpolator.lerp`: `start + (end - start) * t`. -/
def lerp (s e t : ℚ) : ℚ := s + (e - s) * t

/-- `ValueInterpolator.interpolateMetrics`: spreads `startMetrics`, replacing
temperature.current/feelsLike and pressure.current by the lerp and humidity by
the rounded lerp.  The JS guards (`startMetrics.temperature &&
endMetrics.temperature` etc.) are always true here because the fields are
required by the data model. -/
def interpolateMetrics (startMetrics endMetrics : Metrics) (progress : ℚ) : Metrics :=
  { startMetrics with
    temperature :=
      { startMetrics.temperature with
        current := lerp startMetrics.temperature.current endMetrics.temperature.current progress
        feelsLike := lerp startMetrics.temperature.feelsLike endMetrics.temperature.feelsLike progress }
    humidity := (jsRound (lerp startMetrics.humidity endMetrics.humidity progress) : ℚ)
    pressure :=
      { startMetrics.pressure with
        current := lerp startMetrics.pressure.current endMetrics.pressure.current progress } }

/-- `Math.max(0, Math.min(1, progress))`. -/
def clamp01 (progress : ℚ) : ℚ := max 0 (min 1 progress)

/-- `ValueInterpolator.interpolate`: clamps progress to [0,1]; returns
`startData` at 0 and `endData` at 1; otherwise spreads `startData` with
interpolated metrics. -/
def interpolate (startData endData : GroundData) (progress : ℚ) : GroundData :=
  let clampedProgress := clamp01 progress
  if clampedProgress = 0 then startData
  else if clampedProgress = 1 then endData
  else { startData with
         metrics := interpolateMetrics startData.metrics endData.metrics clampedProgress }

end ValueInterpolator

/-! JS `Map` semantics over association lists: lookup finds the (unique) entry
for a key, `set` replaces in place or appends, `delete` removes, iteration is
in insertion order. -/

/-- `Map.get`: first binding for the key (bindings are unique). -/
def mapGet {α β : Type} [DecidableEq α] : List (α × β) → α → Option β
  | [], _ => none
  | (k, v) :: rest, key => if k = key then some v else mapGet rest key

/-- `Map.set`: replace the binding in place, or append a new one. -/
def mapSet {α β : Type} [DecidableEq α] : List (α × β) → α → β → List (α × β)
  | [], key, value => [(key, value)]
  | (k, v) :: rest, key, value =>
    if k = key then (key, value) :: rest else (k, v) :: mapSet rest key value

/-- `Map.delete`: remove the binding for the key. -/
def mapDelete {α β : Type} [DecidableEq α] : List (α × β) → α → List (α × β)
  | [], _ => []
  | (k, v) :: rest, key =>
    if k = key then rest else (k, v) :: mapDelete rest key

namespace CacheManager

/-- One stored cache item: `{ data, timestamp, expires, ttl }`. -/
structure Item where
  data : GroundData
  timestamp : ℕ
  expires : ℕ
  ttl : ℕ
deriving DecidableEq, Repr

/-- The `CacheManager` state: the item map, the LRU access-time map, and the
constructor parameters `maxAge`/`maxSize`.  Keys are abstract (the JS code
uses strings; `GroundDataManager` instantiates them with its structured
cache key). -/
structure State (κ : Type) where
  cache : List (κ × Item)
  accessTimes : List (κ × ℕ)
  maxAge : ℕ
  maxSize : ℕ
deriving Repr

variable {κ : Type} [DecidableEq κ]

/-- `CacheManager.evictOldest`: scan `accessTimes` for the entry with access
time strictly below the running minimum (initialised to `Date.now()`), then
delete it from both maps; if none beats `now`, nothing is evicted. -/
def evictOldest (cm : State κ) (now : ℕ) : State κ :=
  let oldest := cm.accessTimes.foldl
    (fun acc kt => match acc with
      | (oldestKey, oldestTime) =>
        if kt.2 < oldestTime then (some kt.1, kt.2) else (oldestKey, oldestTime))
    ((none : Option κ), now)
  match oldest.1 with
  | some oldestKey =>
    { cm with cache := mapDelete cm.cache oldestKey
              accessTimes := mapDelete cm.accessTimes oldestKey }
  | none => cm

/-- `CacheManager.set`: evict the LRU entry when full and the key is new, then
store `{ data, timestamp: now, expires: now + ttl, ttl }` and record the
access time. -/
def set (cm : State κ) (key : κ) (data : GroundData) (customTTL : Option ℕ)
    (now : ℕ) : State κ :=
  let ttl := customTTL.getD cm.maxAge
  let cm :=
    if cm.maxSize ≤ cm.cache.length ∧ mapGet cm.cache key = none then
      evictOldest cm now
    else cm
  { cm with
    cache := mapSet cm.cache key ⟨data, now, now + ttl, ttl⟩
    accessTimes := mapSet cm.accessTimes key now }

/-- `CacheManager.get`: `null` on miss; on an expired entry (`now > expires`)
delete it from both maps and return `null`; on a live hit refresh the access
time and return the data.  Returns the result together with the updated
state. -/
def get (cm : State κ) (key : κ) (now : ℕ) : Option GroundData × State κ :=
  match mapGet cm.cache key with
  | none => (none, cm)
  | some item =>
    if item.expires < now then
      (none, { cm with cache := mapDelete cm.cache key
                       accessTimes := mapDelete cm.accessTimes key })
    else
      (some item.data, { cm with accessTimes := mapSet cm.accessTimes key now })

end CacheManager

namespace GroundDataManager

/-- The structured content of `generateCacheKey`'s string
`ground_${date.toISOString()}_${roundedLat}_${roundedLon}`: the ISO string of
the hour-truncated date is injective in that date, so key equality is
equality of this triple. -/
structure CacheKey where
  hourMs : ℕ
  roundedLat : ℚ
  roundedLon : ℚ
deriving DecidableEq, Repr

/-- `GroundDataManager.generateCacheKey`: truncate the timestamp to the hour
(`setMinutes(0, 0, 0)` zeroes minutes, seconds and milliseconds) and round the
location to 2 decimal places. -/
def generateCacheKey (timestamp : ℕ) (lat lon : ℚ) : CacheKey :=
  { hourMs := timestamp - timestamp % 3600000
    roundedLat := (jsRound (lat * 100) : ℚ) / 100
    roundedLon := (jsRound (lon * 100) : ℚ) / 100 }

/-- `GroundDataManager` state: the `CacheManager(300000, 200)` instance, the
pending-request ledger mapping cache keys to promise identities, a counter of
promise identities, and an instrumentation counter of how many underlying
retrievals (`fetchDataWithRetry` invocations) have been started. -/
structure State where
  cache : CacheManager.State CacheKey
  pendingRequests : List (CacheKey × ℕ)
  nextPromiseId : ℕ
  startedRetrievals : ℕ
deriving Repr

/-- Outcome of the synchronous prefix of `getDataForTime` (everything up to
and including registering the request in `pendingRequests`; no `await`
intervenes, so this prefix is atomic on the event loop). -/
inductive StartOutcome where
  | cachedHit (data : GroundData)
  | pending (promiseId : ℕ)
  | started (promiseId : ℕ)
deriving DecidableEq, Repr

/-- Synchronous prefix of `GroundDataManager.getDataForTime`: check the cache
(unless `forceRefresh`), then the pending-request ledger (returning the ledger
entry's promise), else start a new retrieval and register it. -/
def getDataForTimeStart (st : State) (timestamp : ℕ) (lat lon : ℚ)
    (forceRefresh : Bool) (now : ℕ) : StartOutcome × State :=
  let cacheKey := generateCacheKey timestamp lat lon
  let afterCache :=
    if forceRefresh then (none, st.cache)
    else CacheManager.get st.cache cacheKey now
  match afterCache.1 with
  | some cachedData => (.cachedHit cachedData, { st with cache := afterCache.2 })
  | none =>
    let st := { st with cache := afterCache.2 }
    match mapGet st.pendingRequests cacheKey with
    | some promiseId => (.pending promiseId, st)
    | none =>
      (.started st.nextPromiseId,
       { st with
         pendingRequests := mapSet st.pendingRequests cacheKey st.nextPromiseId
         nextPromiseId := st.nextPromiseId + 1
         startedRetrievals := st.startedRetrievals + 1 })

end GroundDataManager

/-- Result of one whole retry loop: the settled value (`none` models the JS
loop falling through without returning, which happens only when
`retryAttempts = 0`), the number of collaborator invocations, and the list of
backoff delays awaited between attempts. -/
structure RetryRun where
  result : Option (Except String GroundData)
  invocations : ℕ
  delays : List ℕ
deriving Repr

namespace GroundDataManager

/-- Body of the `for (let attempt = 1; attempt <= retryAttempts; attempt++)`
loop of `fetchDataWithRetry`, with the collaborator modelled as a function
from the attempt number to the settled fetch result.  On failure of a
non-final attempt it waits `retryDelay * 2^(attempt-1)` and continues. -/
def fetchRetryLoop (fetch : ℕ → Except String GroundData) (retryDelay : ℕ)
    (retryAttempts : ℕ) (attempt : ℕ) : RetryRun :=
  if attempt ≤ retryAttempts then
    match fetch attempt with
    | .ok data => ⟨some (.ok data), 1, []⟩
    | .error e =>
      if attempt = retryAttempts then ⟨some (.error e), 1, []⟩
      else
        let delay := retryDelay * 2 ^ (attempt - 1)
        let rest := fetchRetryLoop fetch retryDelay retryAttempts (attempt + 1)
        ⟨rest.result, rest.invocations + 1, delay :: rest.delays⟩
  else ⟨none, 0, []⟩
termination_by retryAttempts + 1 - attempt

/-- `GroundDataManager.fetchDataWithRetry`: the retry loop started at
attempt 1. -/
def fetchDataWithRetry (fetch : ℕ → Except String GroundData)
    (retryDelay retryAttempts : ℕ) : RetryRun :=
  fetchRetryLoop fetch retryDelay retryAttempts 1

/-- Result a caller of `getDataForTime` observes: the settled value (the
`Bool` is true when the value was served as a degraded cached fallback after
the fetch failed, the path that logs the `console.warn`), or the rejection
error. -/
abbrev Outcome := Except String (GroundData × Bool)

/-- Whole-call model of `GroundDataManager.getDataForTime` for a single
caller: the synchronous prefix `getDataForTimeStart` at time `startNow`,
then — for the caller that started the retrieval — the `try/catch/finally`
continuation at time `endNow`, with `fetchResult` the settled result of
`fetchDataWithRetry`.  On success the data is cached; on failure
`cache.get(cacheKey)` is consulted as fallback; the pending entry is removed
either way.  A caller that attached to a pending request just awaits the same
settled result. -/
def getDataForTime (st : State) (timestamp : ℕ) (lat lon : ℚ)
    (forceRefresh : Bool) (startNow endNow : ℕ)
    (fetchResult : Except String GroundData) : Outcome × State :=
  let cacheKey := generateCacheKey timestamp lat lon
  match getDataForTimeStart st timestamp lat lon forceRefresh startNow with
  | (.cachedHit cachedData, st) => (.ok (cachedData, false), st)
  | (.pending _, st) =>
    (fetchResult.map (fun data => (data, false)), st)
  | (.started _, st) =>
    match fetchResult with
    | .ok data =>
      (.ok (data, false),
       { st with cache := CacheManager.set st.cache cacheKey data none endNow
                 pendingRequests := mapDelete st.pendingRequests cacheKey })
    | .error e =>
      let fallback := CacheManager.get st.cache cacheKey endNow
      match fallback.1 with
      | some fallbackData =>
        (.ok (fallbackData, true),
         { st with cache := fallback.2
                   pendingRequests := mapDelete st.pendingRequests cacheKey })
      | none =>
        (.error e,
         { st with cache := fallback.2
                   pendingRequests := mapDelete st.pendingRequests cacheKey })

end GroundDataManager

namespace Timeline

/-- Timeline state relevant to scrolling, debouncing and notification
emission.  `pendingDebounce` models whether `debounceTimeout` is set;
`fired` is the trace of `onTimeChange` notifications actually delivered, each
tagged `true` when delivered by `emitTimeChangeImmediate` and `false` when
delivered by an expiring debounce timer.  `inited` is the `initialized` guard
set at the end of `init()`; `snapEnabled` is `options.snapToHour`. -/
structure State where
  isDragging : Bool
  dragStartX : ℚ
  scrollPosition : ℚ
  hourWidth : ℚ
  pendingDebounce : Bool
  fired : List Bool
  inited : Bool
  snapEnabled : Bool
deriving DecidableEq, Repr

/-- `Timeline.emitTimeChange`: clear any existing timeout, return without
scheduling while the user is actively dragging, else schedule the debounced
notification. -/
def emitTimeChange (s : State) : State :=
  let s := { s with pendingDebounce := false }
  if s.isDragging then s
  else { s with pendingDebounce := true }

/-- Expiry of the debounce timer (after `debounceDelay` = 200 ms with no
intervening clear): deliver the debounced notification. -/
def fireDebounce (s : State) : State :=
  if s.pendingDebounce then
    { s with pendingDebounce := false, fired := s.fired ++ [false] }
  else s

/-- `Timeline.emitTimeChangeImmediate`: clear any pending debounced call and
deliver the notification now. -/
def emitTimeChangeImmediate (s : State) : State :=
  { s with pendingDebounce := false, fired := s.fired ++ [true] }

/-- `Timeline.updateTimelinePosition`: apply the CSS transform (not modelled)
and, once initialised, emit the (debounced) time change. -/
def updateTimelinePosition (s : State) : State :=
  if s.inited then emitTimeChange s else s

/-- `Timeline.updateScrollPosition`: advance the offset by the pixel delta,
update the position/display, and shift `dragStartX` so the next move's delta
is relative to this one. -/
def updateScrollPosition (s : State) (deltaX : ℚ) : State :=
  let s := { s with scrollPosition := s.scrollPosition + deltaX }
  let s := updateTimelinePosition s
  { s with dragStartX := s.dragStartX + deltaX }

/-- `Timeline.handleMouseMove` (the touch-move handler is identical modulo
`event.touches[0]`): ignore unless dragging, else scroll by
`clientX - dragStartX`. -/
def handleMouseMove (s : State) (clientX : ℚ) : State :=
  if s.isDragging then updateScrollPosition s (clientX - s.dragStartX)
  else s

/-- A burst of move events, processed in order. -/
def processMoves (s : State) (clientXs : List ℚ) : State :=
  clientXs.foldl handleMouseMove s

/-- One `requestAnimationFrame` callback of `Timeline.animateToPosition`:
`progress = min(elapsed/duration, 1)` is eased by the ease-out cubic
`1 - (1-progress)^3`, the offset is set to `start + distance * eased`, the
position/display update runs, and at `progress = 1` the animation ends with
an immediate notification. -/
def animStep (startPosition distance : ℚ) (s : State) (progress : ℚ) : State :=
  let easedProgress := 1 - (1 - progress) ^ 3
  let s := { s with scrollPosition := startPosition + distance * easedProgress }
  let s := updateTimelinePosition s
  if progress < 1 then s else emitTimeChangeImmediate s

/-- `Timeline.animateToPosition` over a given monotone schedule of frame
progress values (each `min(elapsed/duration, 1)`; the last one is `1` when
the animation runs to completion). -/
def animateToPosition (s : State) (targetPosition : ℚ) (frames : List ℚ) : State :=
  frames.foldl (animStep s.scrollPosition (targetPosition - s.scrollPosition)) s

/-- `Timeline.snapToHour`: nothing unless `options.snapToHour`; else animate
to `Math.round(scrollPosition / hourWidth) * hourWidth`. -/
def snapToHour (s : State) (frames : List ℚ) : State :=
  if s.snapEnabled then
    animateToPosition s ((jsRound (s.scrollPosition / s.hourWidth) : ℚ) * s.hourWidth) frames
  else s

/-- `Timeline.handleMouseUp` (the touch-end handler is identical): ignore
unless dragging; else leave the dragging state, snap to the hour, and emit an
immediate time change.  The animation frames scheduled by `snapToHour` run on
the event loop after the handler body, hence after that immediate emission;
`frames` is their progress schedule. -/
def handleMouseUp (s : State) (frames : List ℚ) : State :=
  if s.isDragging then
    let s := { s with isDragging := false }
    let startPosition := s.scrollPosition
    let targetPosition := (jsRound (s.scrollPosition / s.hourWidth) : ℚ) * s.hourWidth
    let s := emitTimeChangeImmediate s
    if s.snapEnabled then
      frames.foldl (animStep startPosition (targetPosition - startPosition)) s
    else s
  else s

end Timeline

namespace GroundLayerState

/-- `GroundLayerState.getTimelineKey`: the timestamp truncated to the hour
(`setMinutes(0, 0, 0)`), which indexes `timelineData`. -/
def getTimelineKey (timestamp : ℕ) : ℕ := timestamp - timestamp % 3600000

/-- `GroundLayerState` state relevant to `getCurrentData`: the current
timestamp and the `timelineData` map from truncated-hour keys to cached
samples. -/
structure State where
  currentTimestamp : ℕ
  timelineData : List (ℕ × GroundData)
deriving Repr

/-- Accumulator of `getSurroundingDataPoints`' scan; `closestDistance`
`none` models the `Infinity` initialiser. -/
structure ScanAcc where
  before : Option GroundData
  after : Option GroundData
  closest : Option GroundData
  closestDistance : Option ℕ
deriving Repr

/-- `|dataTime - targetTime|` on epoch milliseconds. -/
def natDist (a b : ℕ) : ℕ := max a b - min a b

/-- First half of the loop body of `getSurroundingDataPoints`: update
`closest`/`closestDistance` on a strictly smaller distance. -/
def updateClosest (targetTime : ℕ) (acc : ScanAcc) (data : GroundData) : ScanAcc :=
  let dist := natDist data.timestamp targetTime
  let beats : Bool := match acc.closestDistance with
    | none => true
    | some closestDistance => dist < closestDistance
  if beats then { acc with closest := some data, closestDistance := some dist }
  else acc

/-- Second half of the loop body: either take `before` (strictly earlier than
the target, later than the running `before`) or, failing that, `after`
(strictly later than the target, earlier than the running `after`). -/
def updateBeforeAfter (targetTime : ℕ) (acc : ScanAcc) (data : GroundData) : ScanAcc :=
  let dataTime := data.timestamp
  let beforeOk : Bool := match acc.before with
    | none => true
    | some b => decide (b.timestamp < dataTime)
  let afterOk : Bool := match acc.after with
    | none => true
    | some a => decide (dataTime < a.timestamp)
  if dataTime < targetTime ∧ beforeOk then
    { acc with before := some data }
  else if targetTime < dataTime ∧ afterOk then
    { acc with after := some data }
  else acc

/-- Loop body of `getSurroundingDataPoints`: the closest update followed by
the before/after update, exactly as the two sequential blocks of the JS
loop. -/
def scanStep (targetTime : ℕ) (acc : ScanAcc) (data : GroundData) : ScanAcc :=
  updateBeforeAfter targetTime (updateClosest targetTime acc data) data

/-- Result of `getSurroundingDataPoints`: `{exact}` on a key hit, else the
`{before, after, closest}` of the scan. -/
structure Surrounding where
  exact : Option GroundData
  before : Option GroundData
  after : Option GroundData
  closest : Option GroundData
deriving Repr

/-- `GroundLayerState.getSurroundingDataPoints`: exact key match short-circuits;
otherwise one linear scan over `timelineData` values. -/
def getSurroundingDataPoints (st : State) (timestamp : ℕ) : Surrounding :=
  match mapGet st.timelineData (getTimelineKey timestamp) with
  | some data => ⟨some data, none, none, none⟩
  | none =>
    let acc := st.timelineData.foldl (fun a kv => scanStep timestamp a kv.2)
      ⟨none, none, none, none⟩
    ⟨none, acc.before, acc.after, acc.closest⟩

/-- The object `getCurrentData` returns: the sample spread together with the
`_interpolated` provenance marker, the `_fallback` marker, and `_progress`
(present only on the interpolation path). -/
structure CurrentData where
  data : GroundData
  interpolatedFlag : Bool
  fallbackFlag : Bool
  progress : Option ℚ
deriving Repr

/-- `GroundLayerState.getCurrentData`: exact cached sample (marked not
interpolated); else interpolate between the bracketing samples at
`(current - before) / (after - before)` and mark the result `_interpolated`
with its `_progress`, stamping it with the current timestamp; else fall back
to the closest sample (marked `_fallback`, not interpolated); else `null`. -/
def getCurrentData (st : State) : Option CurrentData :=
  match mapGet st.timelineData (getTimelineKey st.currentTimestamp) with
  | some data => some ⟨data, false, false, none⟩
  | none =>
    let surrounding := getSurroundingDataPoints st st.currentTimestamp
    match surrounding.exact with
    | some data => some ⟨data, false, false, none⟩
    | none =>
      match surrounding.before, surrounding.after with
      | some before, some after =>
        let beforeTime : ℚ := (before.timestamp : ℚ)
        let afterTime : ℚ := (after.timestamp : ℚ)
        let currentTime : ℚ := (st.currentTimestamp : ℚ)
        let progress := (currentTime - beforeTime) / (afterTime - beforeTime)
        let interpolated := ValueInterpolator.interpolate before after progress
        some ⟨{ interpolated with timestamp := st.currentTimestamp },
              true, false, some progress⟩
      | _, _ =>
        match surrounding.closest with
        | some closest =>
          some ⟨{ closest with timestamp := st.currentTimestamp }, false, true, none⟩
        | none => none

end GroundLayerState

/-! Concrete fixtures used by witness theorems. -/

/-- A concrete valid sample (temperature 10°). -/
def sampleA : GroundData :=
  { timestamp := 1700000000000
    location := { lat := 40.71, lon := -74.01 }
    metrics :=
      { temperature := { current := 10, feelsLike := 9, min24h := 5, max24h := 12 }
        humidity := 60
        pressure := { current := 1013, seaLevel := 1015, trend := .steady } }
    conditions := { description := "clear", icon := "sun" } }

/-- A concrete valid sample one hour after `sampleA` (temperature 20°). -/
def sampleB : GroundData :=
  { timestamp := 1700003600000
    location := { lat := 40.71, lon := -74.01 }
    metrics :=
      { temperature := { current := 20, feelsLike := 21, min24h := 8, max24h := 22 }
        humidity := 71
        pressure := { current := 1020, seaLevel := 1022, trend := .rising } }
    conditions := { description := "cloudy", icon := "cloud" } }

/-! ## C6 -/

/-- C6: for every pair of samples, `interpolate` at progress 0 returns
`before` unchanged and at progress 1 returns `after` unchanged. -/
theorem interpolate_boundary_id (before after : GroundData) :
    ValueInterpolator.interpolate before after 0 = before ∧
    ValueInterpolator.interpolate before after 1 = after := by
  constructor <;>
    norm_num [ValueInterpolator.interpolate, ValueInterpolator.clamp01]

/-! ## C10 -/

/-- C10: `interpolate` clamps its progress argument to [0,1], so any
progress ≤ 0 yields exactly `before` and any progress ≥ 1 yields exactly
`after`; no extrapolation occurs. -/
theorem interpolate_clamped_total (before after : GroundData) (p : ℚ) :
    (p ≤ 0 → ValueInterpolator.interpolate before after p = before) ∧
    (1 ≤ p → ValueInterpolator.interpolate before after p = after) := by
  constructor
  · intro hp
    have hmin : min 1 p = p := min_eq_right (hp.trans (by norm_num))
    have hmax : max 0 p = 0 := max_eq_left hp
    simp [ValueInterpolator.interpolate, ValueInterpolator.clamp01, hmin, hmax]
  · intro hp
    have hmin : min 1 p = 1 := min_eq_left hp
    have hmax : max (0 : ℚ) 1 = 1 := by norm_num
    norm_num [ValueInterpolator.interpolate, ValueInterpolator.clamp01, hmin, hmax]

/-- Witness for C10 at concrete inputs: progress −3 returns `sampleA`,
progress 7/2 returns `sampleB`. -/
theorem interpolate_clamped_total_witness :
    ValueInterpolator.interpolate sampleA sampleB (-3) = sampleA ∧
    ValueInterpolator.interpolate sampleA sampleB (7/2) = sampleB :=
  ⟨(interpolate_clamped_total sampleA sampleB (-3)).1 (by norm_num),
   (interpolate_clamped_total sampleA sampleB (7/2)).2 (by norm_num)⟩

/-! ## C7 -/

/-- C7: for progress strictly between 0 and 1, each numeric leaf
(temperature.current, temperature.feelsLike, humidity, pressure.current) is
`before + (after - before) * progress`, humidity additionally rounded to the
nearest integer, and every other field (conditions, pressure trend and
seaLevel, temperature min/max, location, timestamp) is taken from `before`
unchanged. -/
theorem interpolate_strict_fields (before after : GroundData) (p : ℚ)
    (h0 : 0 < p) (h1 : p < 1) :
    let r := ValueInterpolator.interpolate before after p
    r.metrics.temperature.current =
        before.metrics.temperature.current +
          (after.metrics.temperature.current - before.metrics.temperature.current) * p ∧
    r.metrics.temperature.feelsLike =
        before.metrics.temperature.feelsLike +
          (after.metrics.temperature.feelsLike - before.metrics.temperature.feelsLike) * p ∧
    r.metrics.humidity =
        (jsRound (before.metrics.humidity +
          (after.metrics.humidity - before.metrics.humidity) * p) : ℚ) ∧
    r.metrics.pressure.current =
        before.metrics.pressure.current +
          (after.metrics.pressure.current - before.metrics.pressure.current) * p ∧
    r.metrics.temperature.min24h = before.metrics.temperature.min24h ∧
    r.metrics.temperature.max24h = before.metrics.temperature.max24h ∧
    r.metrics.pressure.seaLevel = before.metrics.pressure.seaLevel ∧
    r.metrics.pressure.trend = before.metrics.pressure.trend ∧
    r.conditions = before.conditions ∧
    r.location = before.location ∧
    r.timestamp = before.timestamp := by
  have hc : ValueInterpolator.clamp01 p = p := by
    unfold ValueInterpolator.clamp01
    rw [min_eq_right h1.le, max_eq_right h0.le]
  simp [ValueInterpolator.interpolate, hc, if_neg h0.ne', if_neg h1.ne,
    ValueInterpolator.interpolateMetrics, ValueInterpolator.lerp]

/-- Witness for C7: `before.current = 10`, `after.current = 20`,
`progress = 1/2` yields `current = 15` (and humidity 66 = round(65.5)). -/
theorem interpolate_strict_fields_witness :
    ((0 : ℚ) < 1/2 ∧ (1/2 : ℚ) < 1) ∧
    (ValueInterpolator.interpolate sampleA sampleB (1/2)).metrics.temperature.current = 15 ∧
    (ValueInterpolator.interpolate sampleA sampleB (1/2)).metrics.humidity = 66 := by
  have h := interpolate_strict_fields sampleA sampleB (1/2) (by norm_num) (by norm_num)
  refine ⟨⟨by norm_num, by norm_num⟩, ?_, ?_⟩
  · rw [h.1]; norm_num [sampleA, sampleB]
  · rw [h.2.2.1]; norm_num [sampleA, sampleB, jsRound]

/-! ## C9 -/

/-- Looking up a key right after setting it finds the just-stored value. -/
theorem mapGet_mapSet_self {α β : Type} [DecidableEq α]
    (l : List (α × β)) (k : α) (v : β) :
    mapGet (mapSet l k v) k = some v := by
  induction l with
  | nil => simp [mapSet, mapGet]
  | cons hd tl ih =>
    obtain ⟨a, b⟩ := hd
    by_cases h : a = k
    · simp [mapSet, mapGet, h]
    · simp [mapSet, mapGet, h, ih]

/-- C9: the cache key is the timestamp truncated to the hour (for a fixed
location), so any two timestamps in the same clock hour collide to one entry:
`set(t1, d)` then `get(t2)` within the TTL returns `d`. -/
theorem cacheKey_hour_collision
    (cm : CacheManager.State GroundDataManager.CacheKey)
    (t1 t2 : ℕ) (lat lon : ℚ) (d : GroundData) (setNow getNow : ℕ)
    (hHour : t1 / 3600000 = t2 / 3600000)
    (hLive : getNow ≤ setNow + cm.maxAge) :
    (CacheManager.get
        (CacheManager.set cm (GroundDataManager.generateCacheKey t1 lat lon) d none setNow)
        (GroundDataManager.generateCacheKey t2 lat lon) getNow).1 = some d := by
  have hms : t1 - t1 % 3600000 = t2 - t2 % 3600000 := by
    have h1 := Nat.div_add_mod t1 3600000
    have h2 := Nat.div_add_mod t2 3600000
    omega
  have hkey : GroundDataManager.generateCacheKey t2 lat lon =
      GroundDataManager.generateCacheKey t1 lat lon := by
    simp [GroundDataManager.generateCacheKey, hms]
  rw [hkey]
  simp only [CacheManager.set, CacheManager.get, Option.getD_none, mapGet_mapSet_self]
  rw [if_neg (by omega)]

/-- Witness for C9 at concrete inputs: two timestamps 5 seconds apart in the
same clock hour collide to one entry. -/
theorem cacheKey_hour_collision_witness :
    (CacheManager.get
        (CacheManager.set (⟨[], [], 300000, 200⟩ : CacheManager.State GroundDataManager.CacheKey)
          (GroundDataManager.generateCacheKey 7200000000 (4071/100) (-7401/100)) sampleA none 1000)
        (GroundDataManager.generateCacheKey 7200005000 (4071/100) (-7401/100)) 2000).1 =
      some sampleA :=
  cacheKey_hour_collision ⟨[], [], 300000, 200⟩ 7200000000 7200005000
    (4071/100) (-7401/100) sampleA 1000 2000 (by norm_num) (by norm_num)

/-! ## C1 -/

/-- A `CacheManager.get` on a key with no entry returns `null` and leaves the
cache unchanged. -/
theorem cacheGet_absent {κ : Type} [DecidableEq κ]
    (cm : CacheManager.State κ) (key : κ) (now : ℕ)
    (h : mapGet cm.cache key = none) :
    CacheManager.get cm key now = (none, cm) := by
  unfold CacheManager.get
  rw [h]

/-- C1: for an uncached timestamp with no pending retrieval, the first
`getDataForTime` call starts exactly one retrieval and registers its promise;
a second call for the same key while it is pending attaches to that same
promise, changes no state, and starts no second retrieval — so two concurrent
calls cause exactly one underlying fetch invocation. -/
theorem getDataForTime_dedup (st : GroundDataManager.State) (t : ℕ)
    (lat lon : ℚ) (now1 now2 : ℕ)
    (hCache : mapGet st.cache.cache (GroundDataManager.generateCacheKey t lat lon) = none)
    (hPending : mapGet st.pendingRequests (GroundDataManager.generateCacheKey t lat lon) = none) :
    (GroundDataManager.getDataForTimeStart st t lat lon false now1).1 =
        .started st.nextPromiseId ∧
    (GroundDataManager.getDataForTimeStart
        (GroundDataManager.getDataForTimeStart st t lat lon false now1).2
        t lat lon false now2).1 = .pending st.nextPromiseId ∧
    (GroundDataManager.getDataForTimeStart
        (GroundDataManager.getDataForTimeStart st t lat lon false now1).2
        t lat lon false now2).2 =
      (GroundDataManager.getDataForTimeStart st t lat lon false now1).2 ∧
    ((GroundDataManager.getDataForTimeStart st t lat lon false now1).2).startedRetrievals =
      st.startedRetrievals + 1 := by
  have h1 : CacheManager.get st.cache (GroundDataManager.generateCacheKey t lat lon) now1 =
      (none, st.cache) := cacheGet_absent _ _ _ hCache
  simp [GroundDataManager.getDataForTimeStart, h1, hPending,
    cacheGet_absent _ _ now2 hCache, mapGet_mapSet_self]

/-- A fresh `GroundDataManager` state: empty `CacheManager(300000, 200)`,
empty pending ledger, no retrievals started. -/
def dmState0 : GroundDataManager.State :=
  { cache := ⟨[], [], 300000, 200⟩
    pendingRequests := []
    nextPromiseId := 0
    startedRetrievals := 0 }

/-- Witness for C1 at a concrete fresh state: the first call starts retrieval
(promise 0), the second attaches to promise 0 without changing state, and
exactly one retrieval was started. -/
theorem getDataForTime_dedup_witness :
    (GroundDataManager.getDataForTimeStart dmState0 7200000000 (4071/100) (-7401/100) false 0).1 =
        .started 0 ∧
    (GroundDataManager.getDataForTimeStart
        (GroundDataManager.getDataForTimeStart dmState0 7200000000 (4071/100) (-7401/100) false 0).2
        7200000000 (4071/100) (-7401/100) false 5).1 = .pending 0 ∧
    (GroundDataManager.getDataForTimeStart
        (GroundDataManager.getDataForTimeStart dmState0 7200000000 (4071/100) (-7401/100) false 0).2
        7200000000 (4071/100) (-7401/100) false 5).2 =
      (GroundDataManager.getDataForTimeStart dmState0 7200000000 (4071/100) (-7401/100) false 0).2 ∧
    ((GroundDataManager.getDataForTimeStart dmState0 7200000000 (4071/100) (-7401/100) false 0).2).startedRetrievals =
      0 + 1 :=
  getDataForTime_dedup dmState0 7200000000 (4071/100) (-7401/100) 0 5 rfl rfl

/-! ## C2 -/

/-- C2: with the default budget of 3 attempts, a collaborator that fails on
attempts 1 and 2 and succeeds on attempt 3 makes `fetchDataWithRetry` settle
with the successful value after exactly 3 invocations, waiting
`retryDelay * 2^0` before the first retry and `retryDelay * 2^1` before the
second (doubling backoff); and for any collaborator at most 3 invocations are
made. -/
theorem fetchDataWithRetry_two_failures (fetch : ℕ → Except String GroundData)
    (retryDelay : ℕ) (e1 e2 : String) (v : GroundData)
    (h1 : fetch 1 = .error e1) (h2 : fetch 2 = .error e2) (h3 : fetch 3 = .ok v) :
    (GroundDataManager.fetchDataWithRetry fetch retryDelay 3).result = some (.ok v) ∧
    (GroundDataManager.fetchDataWithRetry fetch retryDelay 3).invocations = 3 ∧
    (GroundDataManager.fetchDataWithRetry fetch retryDelay 3).delays =
      [retryDelay * 2 ^ 0, retryDelay * 2 ^ 1] ∧
    ∀ g : ℕ → Except String GroundData,
      (GroundDataManager.fetchDataWithRetry g retryDelay 3).invocations ≤ 3 := by
  refine ⟨?_, ?_, ?_, ?_⟩
  · unfold GroundDataManager.fetchDataWithRetry
    rw [GroundDataManager.fetchRetryLoop, h1]
    norm_num
    rw [GroundDataManager.fetchRetryLoop, h2]
    norm_num
    rw [GroundDataManager.fetchRetryLoop, h3]
    norm_num
  · unfold GroundDataManager.fetchDataWithRetry
    rw [GroundDataManager.fetchRetryLoop, h1]
    norm_num
    rw [GroundDataManager.fetchRetryLoop, h2]
    norm_num
    rw [GroundDataManager.fetchRetryLoop, h3]
    norm_num
  · unfold GroundDataManager.fetchDataWithRetry
    rw [GroundDataManager.fetchRetryLoop, h1]
    norm_num
    rw [GroundDataManager.fetchRetryLoop, h2]
    norm_num
    rw [GroundDataManager.fetchRetryLoop, h3]
    norm_num
  · intro g
    unfold GroundDataManager.fetchDataWithRetry
    rw [GroundDataManager.fetchRetryLoop]
    cases hg1 : g 1 <;> norm_num
    rw [GroundDataManager.fetchRetryLoop]
    cases hg2 : g 2 <;> norm_num
    rw [GroundDataManager.fetchRetryLoop]
    cases hg3 : g 3 <;> norm_num

/-- A call-counting-style fake collaborator: fails on attempts 1 and 2,
succeeds from attempt 3 on. -/
def retryFake : ℕ → Except String GroundData :=
  fun n => if n = 1 then .error "f1" else if n = 2 then .error "f2" else .ok sampleA

/-- Witness for C2: the fake collaborator settles with the success after
exactly 3 invocations, with doubling delays. -/
theorem fetchDataWithRetry_two_failures_witness :
    (GroundDataManager.fetchDataWithRetry retryFake 1000 3).result = some (.ok sampleA) ∧
    (GroundDataManager.fetchDataWithRetry retryFake 1000 3).invocations = 3 ∧
    (GroundDataManager.fetchDataWithRetry retryFake 1000 3).delays =
      [1000 * 2 ^ 0, 1000 * 2 ^ 1] :=
  have h := fetchDataWithRetry_two_failures retryFake 1000 "f1" "f2" sampleA rfl rfl rfl
  ⟨h.1, h.2.1, h.2.2.1⟩

/-! ## C3 -/

/-- The cache key of the fixture timestamp/location used by the C3
counterexample. -/
def keyX : GroundDataManager.CacheKey :=
  GroundDataManager.generateCacheKey 7200000000 (4071/100) (-7401/100)

/-- A manager state whose cache holds an entry for `keyX` that is logically
expired at time 10 (it expired at time 5). -/
def stExpired : GroundDataManager.State :=
  { cache := ⟨[(keyX, ⟨sampleA, 0, 5, 5⟩)], [(keyX, 0)], 300000, 200⟩
    pendingRequests := []
    nextPromiseId := 0
    startedRetrievals := 0 }

/-- Counterexample to C3: at time 10 a cache entry for the key exists but is
expired; after retries are exhausted the call rejects with the fetch error
instead of returning the existing entry as a degraded fallback. -/
theorem getDataForTime_expired_fallback_cex :
    mapGet stExpired.cache.cache keyX = some ⟨sampleA, 0, 5, 5⟩ ∧
    (GroundDataManager.getDataForTime stExpired 7200000000 (4071/100) (-7401/100)
        false 10 10 (.error "network down")).1 = .error "network down" := by
  constructor
  · simp [stExpired, mapGet]
  · simp [GroundDataManager.getDataForTime, GroundDataManager.getDataForTimeStart,
      CacheManager.get, stExpired, keyX, mapGet, mapDelete]

/-- C3 (amended): after retries are exhausted the cached entry is returned as
a degraded fallback — flagged with the non-fatal warning marker — exactly
when the fallback lookup finds a live (non-expired) entry for the key; when
the lookup returns `null` (entry absent, or expired and thereby deleted) the
call rejects with the fetch error. -/
theorem getDataForTime_fallback_live_only (st : GroundDataManager.State)
    (t : ℕ) (lat lon : ℚ) (now1 now2 : ℕ) (e : String) (fd : GroundData)
    (hPending : mapGet st.pendingRequests
      (GroundDataManager.generateCacheKey t lat lon) = none) :
    ((CacheManager.get st.cache (GroundDataManager.generateCacheKey t lat lon) now2).1 =
        some fd →
      (GroundDataManager.getDataForTime st t lat lon true now1 now2 (.error e)).1 =
        .ok (fd, true)) ∧
    ((CacheManager.get st.cache (GroundDataManager.generateCacheKey t lat lon) now2).1 =
        none →
      (GroundDataManager.getDataForTime st t lat lon true now1 now2 (.error e)).1 =
        .error e) := by
  have hstart : GroundDataManager.getDataForTimeStart st t lat lon true now1 =
      (.started st.nextPromiseId,
       { st with
         pendingRequests := mapSet st.pendingRequests
           (GroundDataManager.generateCacheKey t lat lon) st.nextPromiseId
         nextPromiseId := st.nextPromiseId + 1
         startedRetrievals := st.startedRetrievals + 1 }) := by
    simp [GroundDataManager.getDataForTimeStart, hPending]
  constructor <;> intro h <;>
    simp [GroundDataManager.getDataForTime, hstart, h]

/-- A manager state whose cache holds a live (unexpired until 300000) entry
for `keyX`. -/
def stLive : GroundDataManager.State :=
  { cache := ⟨[(keyX, ⟨sampleA, 0, 300000, 300000⟩)], [(keyX, 0)], 300000, 200⟩
    pendingRequests := []
    nextPromiseId := 0
    startedRetrievals := 0 }

/-- Witness for amended C3: with a live entry the failed call degrades to the
cached sample with the warning flag; with an empty cache it rejects. -/
theorem getDataForTime_fallback_live_only_witness :
    (GroundDataManager.getDataForTime stLive 7200000000 (4071/100) (-7401/100)
        true 0 10 (.error "network down")).1 = .ok (sampleA, true) ∧
    (GroundDataManager.getDataForTime dmState0 7200000000 (4071/100) (-7401/100)
        true 0 10 (.error "network down")).1 = .error "network down" :=
  ⟨(getDataForTime_fallback_live_only stLive 7200000000 (4071/100) (-7401/100)
      0 10 "network down" sampleA rfl).1
      (by simp [stLive, keyX, CacheManager.get, mapGet]),
   (getDataForTime_fallback_live_only dmState0 7200000000 (4071/100) (-7401/100)
      0 10 "network down" sampleA rfl).2 (by rfl)⟩

/-! ## C4 -/

/-- A move event while dragging advances the offset by the pixel delta since
the last move, keeps dragging, delivers no notification (the debounced
emission returns early while `isDragging`, after clearing any pending timer)
and leaves `initialized` untouched. -/
theorem handleMouseMove_dragging (s : Timeline.State) (x : ℚ)
    (h : s.isDragging = true) :
    (Timeline.handleMouseMove s x).scrollPosition = s.scrollPosition + (x - s.dragStartX) ∧
    (Timeline.handleMouseMove s x).fired = s.fired ∧
    (Timeline.handleMouseMove s x).isDragging = true ∧
    (Timeline.handleMouseMove s x).inited = s.inited ∧
    (Timeline.handleMouseMove s x).pendingDebounce =
      (if s.inited then false else s.pendingDebounce) := by
  cases hi : s.inited <;>
    simp [Timeline.handleMouseMove, h, hi, Timeline.updateScrollPosition,
      Timeline.updateTimelinePosition, Timeline.emitTimeChange]

/-- C4 (amended): while the Timeline is dragging, every move event updates
the scroll offset by the pixel delta since the last move, but the debounced
time-change emission is suppressed (`emitTimeChange` returns before
scheduling while `isDragging`), so a burst of move events during a drag —
ten rapid ones included — delivers zero time-change notifications and leaves
none pending; the notification is deferred to the drag release. -/
theorem timeline_drag_moves_suppressed (s : Timeline.State) (xs : List ℚ)
    (h : s.isDragging = true) (hin : s.inited = true) (hne : xs ≠ []) :
    (Timeline.processMoves s xs).fired = s.fired ∧
    (Timeline.processMoves s xs).pendingDebounce = false ∧
    ∀ x : ℚ, (Timeline.handleMouseMove s x).scrollPosition =
      s.scrollPosition + (x - s.dragStartX) := by
  refine ⟨?_, ?_, fun x => (handleMouseMove_dragging s x h).1⟩
  all_goals
    induction xs generalizing s with
    | nil => simp at hne
    | cons x rest ih =>
      have hm := handleMouseMove_dragging s x h
      have hstep : Timeline.processMoves s (x :: rest) =
          Timeline.processMoves (Timeline.handleMouseMove s x) rest := rfl
      cases rest with
      | nil =>
        simp [hstep, Timeline.processMoves, hm.2.1, hm.2.2.2.2, hin]
      | cons y ys =>
        rw [hstep]
        have hin' : (Timeline.handleMouseMove s x).inited = true := by
          rw [hm.2.2.2.1, hin]
        have ihr := ih (Timeline.handleMouseMove s x) hm.2.2.1 hin' (by simp)
        first
        | exact ihr.trans hm.2.1
        | exact ihr

/-- A concrete initialised Timeline state in the middle of a drag. -/
def tlDrag0 : Timeline.State :=
  { isDragging := true
    dragStartX := 0
    scrollPosition := 0
    hourWidth := 80
    pendingDebounce := false
    fired := []
    inited := true
    snapEnabled := true }

/-- Counterexample to C4: a burst of 10 rapid move events during a drag
delivers zero time-change notifications (not one) — even after the debounce
window elapses nothing fires, because `emitTimeChange` never schedules while
dragging. -/
theorem timeline_debounce_cex :
    (Timeline.fireDebounce
        (Timeline.processMoves tlDrag0 [1, 2, 3, 4, 5, 6, 7, 8, 9, 10])).fired.length = 0 ∧
    (Timeline.fireDebounce
        (Timeline.processMoves tlDrag0 [1, 2, 3, 4, 5, 6, 7, 8, 9, 10])).fired.length ≠ 1 := by
  have h0 : (Timeline.fireDebounce
      (Timeline.processMoves tlDrag0 [1, 2, 3, 4, 5, 6, 7, 8, 9, 10])).fired.length = 0 := rfl
  exact ⟨h0, by rw [h0]; norm_num⟩

/-- Witness for amended C4 at concrete inputs: 10 rapid moves in a drag leave
the notification trace empty with no debounce pending, and one move from the
start state shifts the offset by its pixel delta. -/
theorem timeline_drag_moves_suppressed_witness :
    (Timeline.processMoves tlDrag0 [1, 2, 3, 4, 5, 6, 7, 8, 9, 10]).fired = [] ∧
    (Timeline.processMoves tlDrag0 [1, 2, 3, 4, 5, 6, 7, 8, 9, 10]).pendingDebounce = false ∧
    (Timeline.handleMouseMove tlDrag0 7).scrollPosition = 0 + (7 - 0) :=
  have h := timeline_drag_moves_suppressed tlDrag0 [1, 2, 3, 4, 5, 6, 7, 8, 9, 10]
    rfl rfl (by simp)
  ⟨h.1, h.2.1, h.2.2 7⟩

/-! ## C5 -/

/-- Animation frames strictly before completion deliver no notification and
do not touch the dragging flag. -/
theorem animSteps_partial (startPos dist : ℚ) (s : Timeline.State) (ps : List ℚ)
    (h : ∀ p ∈ ps, p < 1) :
    (ps.foldl (Timeline.animStep startPos dist) s).fired = s.fired ∧
    (ps.foldl (Timeline.animStep startPos dist) s).isDragging = s.isDragging := by
  induction ps generalizing s with
  | nil => exact ⟨rfl, rfl⟩
  | cons p rest ih =>
    have hp : p < 1 := h p (List.mem_cons_self p rest)
    have hstep : (Timeline.animStep startPos dist s p).fired = s.fired ∧
        (Timeline.animStep startPos dist s p).isDragging = s.isDragging := by
      cases hi : s.inited <;> cases hdr : s.isDragging <;>
        simp [Timeline.animStep, Timeline.updateTimelinePosition,
          Timeline.emitTimeChange, hp, hi, hdr]
    have ihr := ih (Timeline.animStep startPos dist s p)
      (fun q hq => h q (List.mem_cons_of_mem p hq))
    rw [List.foldl_cons]
    exact ⟨ihr.1.trans hstep.1, ihr.2.trans hstep.2⟩

/-- The completing frame (`progress = 1`): eased progress is 1, so the offset
lands exactly on the target, and exactly one immediate notification is
delivered. -/
theorem animStep_final (startPos dist : ℚ) (s : Timeline.State) :
    (Timeline.animStep startPos dist s 1).fired = s.fired ++ [true] ∧
    (Timeline.animStep startPos dist s 1).scrollPosition = startPos + dist ∧
    (Timeline.animStep startPos dist s 1).isDragging = s.isDragging := by
  cases hi : s.inited <;> cases hdr : s.isDragging <;>
    simp [Timeline.animStep, Timeline.updateTimelinePosition,
      Timeline.emitTimeChange, Timeline.emitTimeChangeImmediate, hi, hdr]

/-- C5 (amended): on drag release with hour snapping enabled, the Timeline
animates to the nearest hour boundary `Math.round(offset / hourWidth) *
hourWidth` (reached exactly at the completing frame, via the ease-out cubic)
— but each release delivers exactly two immediate time-change notifications,
not one: `handleMouseUp` emits one synchronously at release and the
animation-completion handler emits the second. -/
theorem timeline_release_snap_two_immediates (s : Timeline.State) (ps : List ℚ)
    (hd : s.isDragging = true) (hsnap : s.snapEnabled = true)
    (hps : ∀ p ∈ ps, p < 1) :
    (Timeline.handleMouseUp s (ps ++ [1])).scrollPosition =
      (jsRound (s.scrollPosition / s.hourWidth) : ℚ) * s.hourWidth ∧
    (Timeline.handleMouseUp s (ps ++ [1])).fired = s.fired ++ [true, true] ∧
    (Timeline.handleMouseUp s (ps ++ [1])).isDragging = false := by
  have hup : Timeline.handleMouseUp s (ps ++ [1]) =
      (ps ++ [1]).foldl
        (Timeline.animStep s.scrollPosition
          ((jsRound (s.scrollPosition / s.hourWidth) : ℚ) * s.hourWidth - s.scrollPosition))
        { s with isDragging := false, pendingDebounce := false,
                 fired := s.fired ++ [true] } := by
    simp [Timeline.handleMouseUp, hd, hsnap, Timeline.emitTimeChangeImmediate]
  rw [hup, List.foldl_append, List.foldl_cons, List.foldl_nil]
  have hmid := animSteps_partial s.scrollPosition
    ((jsRound (s.scrollPosition / s.hourWidth) : ℚ) * s.hourWidth - s.scrollPosition)
    { s with isDragging := false, pendingDebounce := false, fired := s.fired ++ [true] }
    ps hps
  have hfin := animStep_final s.scrollPosition
    ((jsRound (s.scrollPosition / s.hourWidth) : ℚ) * s.hourWidth - s.scrollPosition)
    (ps.foldl (Timeline.animStep s.scrollPosition
      ((jsRound (s.scrollPosition / s.hourWidth) : ℚ) * s.hourWidth - s.scrollPosition))
      { s with isDragging := false, pendingDebounce := false, fired := s.fired ++ [true] })
  refine ⟨?_, ?_, ?_⟩
  · rw [hfin.2.1]; ring
  · rw [hfin.1, hmid.1]; simp
  · rw [hfin.2.2, hmid.2]

/-- Counterexample to C5: one release (with a two-frame snap animation)
delivers two immediate time-change notifications — one fired synchronously in
the release handler, one at animation completion — not exactly one. -/
theorem timeline_release_single_immediate_cex :
    (Timeline.handleMouseUp tlDrag0 [0, 1]).fired = [true, true] ∧
    (Timeline.handleMouseUp tlDrag0 [0, 1]).fired.length ≠ 1 := by
  have h2 : (Timeline.handleMouseUp tlDrag0 [0, 1]).fired = [true, true] := rfl
  exact ⟨h2, by rw [h2]; norm_num⟩

/-- Witness for amended C5 at concrete inputs: releasing the drag at offset 0
with hourWidth 80 snaps to `round(0/80) * 80` and the trace records exactly
the two immediate notifications. -/
theorem timeline_release_snap_two_immediates_witness :
    (Timeline.handleMouseUp tlDrag0 [0, 1]).scrollPosition =
      (jsRound (tlDrag0.scrollPosition / tlDrag0.hourWidth) : ℚ) * tlDrag0.hourWidth ∧
    (Timeline.handleMouseUp tlDrag0 [0, 1]).fired = tlDrag0.fired ++ [true, true] ∧
    (Timeline.handleMouseUp tlDrag0 [0, 1]).isDragging = false :=
  timeline_release_snap_two_immediates tlDrag0 [0] rfl rfl
    (by intro p hp; rw [List.mem_singleton] at hp; rw [hp]; norm_num)

/-! ## C8 -/

/-- The closest-point update leaves `before` and `after` untouched. -/
theorem updateClosest_before_after (t : ℕ) (acc : GroundLayerState.ScanAcc)
    (d : GroundData) :
    (GroundLayerState.updateClosest t acc d).before = acc.before ∧
    (GroundLayerState.updateClosest t acc d).after = acc.after := by
  unfold GroundLayerState.updateClosest
  dsimp only
  split <;> exact ⟨rfl, rfl⟩

/-- The before/after update preserves the invariant that `before` is strictly
earlier and `after` strictly later than the target time. -/
theorem updateBeforeAfter_inv (t : ℕ) (acc : GroundLayerState.ScanAcc)
    (d : GroundData)
    (hb : ∀ b, acc.before = some b → b.timestamp < t)
    (ha : ∀ a, acc.after = some a → t < a.timestamp) :
    (∀ b, (GroundLayerState.updateBeforeAfter t acc d).before = some b → b.timestamp < t) ∧
    (∀ a, (GroundLayerState.updateBeforeAfter t acc d).after = some a → t < a.timestamp) := by
  unfold GroundLayerState.updateBeforeAfter
  dsimp only
  constructor
  · intro b hbEq
    split at hbEq
    · next h1 =>
        simp only [Option.some.injEq] at hbEq
        rw [← hbEq]
        exact h1.1
    · next =>
        split at hbEq
        · exact hb b hbEq
        · exact hb b hbEq
  · intro a haEq
    split at haEq
    · exact ha a haEq
    · next =>
        split at haEq
        · next h2 =>
            simp only [Option.some.injEq] at haEq
            rw [← haEq]
            exact h2.1
        · exact ha a haEq

/-- Over the whole scan, any `before` found is strictly earlier than the
target and any `after` strictly later. -/
theorem scanFold_inv (t : ℕ) (l : List (ℕ × GroundData)) :
    (∀ b, (l.foldl (fun a kv => GroundLayerState.scanStep t a kv.2)
        ⟨none, none, none, none⟩).before = some b → b.timestamp < t) ∧
    (∀ a, (l.foldl (fun a kv => GroundLayerState.scanStep t a kv.2)
        ⟨none, none, none, none⟩).after = some a → t < a.timestamp) := by
  suffices h : ∀ acc : GroundLayerState.ScanAcc,
      (∀ b, acc.before = some b → b.timestamp < t) →
      (∀ a, acc.after = some a → t < a.timestamp) →
      (∀ b, (l.foldl (fun a kv => GroundLayerState.scanStep t a kv.2) acc).before =
        some b → b.timestamp < t) ∧
      (∀ a, (l.foldl (fun a kv => GroundLayerState.scanStep t a kv.2) acc).after =
        some a → t < a.timestamp) by
    exact h ⟨none, none, none, none⟩ (by intro b hb; cases hb) (by intro a ha; cases ha)
  induction l with
  | nil => exact fun acc hb ha => ⟨hb, ha⟩
  | cons kv rest ih =>
    intro acc hb ha
    have hcl := updateClosest_before_after t acc kv.2
    have hstep := updateBeforeAfter_inv t (GroundLayerState.updateClosest t acc kv.2) kv.2
      (fun b hbEq => hb b (hcl.1 ▸ hbEq)) (fun a haEq => ha a (hcl.2 ▸ haEq))
    exact ih _ hstep.1 hstep.2

/-- C8: a sample returned from the exact cache hit carries
`_interpolated: false`, while any result carrying `_interpolated: true` comes
from the bracketing-interpolation path and its recorded `_progress` is
strictly between 0 and 1 (the bracketing points are strictly earlier and
strictly later than the current time). -/
theorem getCurrentData_marker (st : GroundLayerState.State) :
    (∀ d, mapGet st.timelineData (GroundLayerState.getTimelineKey st.currentTimestamp) =
        some d →
      GroundLayerState.getCurrentData st = some ⟨d, false, false, none⟩) ∧
    (∀ b a, mapGet st.timelineData (GroundLayerState.getTimelineKey st.currentTimestamp) =
        none →
      (st.timelineData.foldl
        (fun acc kv => GroundLayerState.scanStep st.currentTimestamp acc kv.2)
        ⟨none, none, none, none⟩).before = some b →
      (st.timelineData.foldl
        (fun acc kv => GroundLayerState.scanStep st.currentTimestamp acc kv.2)
        ⟨none, none, none, none⟩).after = some a →
      GroundLayerState.getCurrentData st =
        some ⟨{ ValueInterpolator.interpolate b a
              (((st.currentTimestamp : ℚ) - (b.timestamp : ℚ)) /
                ((a.timestamp : ℚ) - (b.timestamp : ℚ))) with
              timestamp := st.currentTimestamp },
            true, false,
            some (((st.currentTimestamp : ℚ) - (b.timestamp : ℚ)) /
              ((a.timestamp : ℚ) - (b.timestamp : ℚ)))⟩) ∧
    (∀ r, GroundLayerState.getCurrentData st = some r → r.interpolatedFlag = true →
      ∃ p, r.progress = some p ∧ 0 < p ∧ p < 1) := by
  refine ⟨?_, ?_, ?_⟩
  · intro d hd
    simp [GroundLayerState.getCurrentData, hd]
  · intro b a hk hbA haA
    have hsur : GroundLayerState.getSurroundingDataPoints st st.currentTimestamp =
        ⟨none,
         (st.timelineData.foldl
           (fun acc kv => GroundLayerState.scanStep st.currentTimestamp acc kv.2)
           ⟨none, none, none, none⟩).before,
         (st.timelineData.foldl
           (fun acc kv => GroundLayerState.scanStep st.currentTimestamp acc kv.2)
           ⟨none, none, none, none⟩).after,
         (st.timelineData.foldl
           (fun acc kv => GroundLayerState.scanStep st.currentTimestamp acc kv.2)
           ⟨none, none, none, none⟩).closest⟩ := by
      simp [GroundLayerState.getSurroundingDataPoints, hk]
    simp [GroundLayerState.getCurrentData, hk, hsur, hbA, haA]
  · intro r hr hflag
    cases hk : mapGet st.timelineData (GroundLayerState.getTimelineKey st.currentTimestamp) with
    | some d =>
      simp [GroundLayerState.getCurrentData, hk] at hr
      rw [← hr] at hflag
      simp at hflag
    | none =>
      have hsur : GroundLayerState.getSurroundingDataPoints st st.currentTimestamp =
          ⟨none,
           (st.timelineData.foldl
             (fun a kv => GroundLayerState.scanStep st.currentTimestamp a kv.2)
             ⟨none, none, none, none⟩).before,
           (st.timelineData.foldl
             (fun a kv => GroundLayerState.scanStep st.currentTimestamp a kv.2)
             ⟨none, none, none, none⟩).after,
           (st.timelineData.foldl
             (fun a kv => GroundLayerState.scanStep st.currentTimestamp a kv.2)
             ⟨none, none, none, none⟩).closest⟩ := by
        simp [GroundLayerState.getSurroundingDataPoints, hk]
      have hinv := scanFold_inv st.currentTimestamp st.timelineData
      cases hbA : (st.timelineData.foldl
          (fun a kv => GroundLayerState.scanStep st.currentTimestamp a kv.2)
          ⟨none, none, none, none⟩).before with
      | none =>
        simp [GroundLayerState.getCurrentData, hk, hsur, hbA] at hr
        cases hcA : (st.timelineData.foldl
            (fun a kv => GroundLayerState.scanStep st.currentTimestamp a kv.2)
            ⟨none, none, none, none⟩).closest with
        | none => simp [hcA] at hr
        | some c =>
          simp [hcA] at hr
          rw [← hr] at hflag
          simp at hflag
      | some b =>
        cases haA : (st.timelineData.foldl
            (fun a kv => GroundLayerState.scanStep st.currentTimestamp a kv.2)
            ⟨none, none, none, none⟩).after with
        | none =>
          simp [GroundLayerState.getCurrentData, hk, hsur, hbA, haA] at hr
          cases hcA : (st.timelineData.foldl
              (fun a kv => GroundLayerState.scanStep st.currentTimestamp a kv.2)
              ⟨none, none, none, none⟩).closest with
          | none => simp [hcA] at hr
          | some c =>
            simp [hcA] at hr
            rw [← hr] at hflag
            simp at hflag
        | some a =>
          simp only [GroundLayerState.getCurrentData, hk, hsur, hbA, haA,
            Option.some.injEq] at hr
          have hbt : b.timestamp < st.currentTimestamp := hinv.1 b hbA
          have hat : st.currentTimestamp < a.timestamp := hinv.2 a haA
          have hbtq : (b.timestamp : ℚ) < (st.currentTimestamp : ℚ) := by
            exact_mod_cast hbt
          have hatq : (st.currentTimestamp : ℚ) < (a.timestamp : ℚ) := by
            exact_mod_cast hat
          rw [← hr]
          refine ⟨((st.currentTimestamp : ℚ) - (b.timestamp : ℚ)) /
              ((a.timestamp : ℚ) - (b.timestamp : ℚ)), rfl, ?_, ?_⟩
          · exact div_pos (by linarith) (by linarith)
          · rw [div_lt_one (by linarith)]
            linarith

/-- A concrete valid sample two hours after `sampleA`. -/
def sampleC : GroundData := { sampleB with timestamp := 1700007200000 }

/-- A state whose current timestamp falls in the cached hour of `sampleA`. -/
def glExact : GroundLayerState.State :=
  { currentTimestamp := 1700001800000
    timelineData := [(1699999200000, sampleA)] }

/-- A state whose current timestamp falls in an uncached hour strictly
between `sampleA` and `sampleC`. -/
def glInterp : GroundLayerState.State :=
  { currentTimestamp := 1700004000000
    timelineData := [(1699999200000, sampleA), (1700006400000, sampleC)] }

/-- Witness for C8 at concrete inputs: the exact-hour hit comes back without
the interpolated marker, and the bracketed timestamp comes back interpolated
with the marker set and its progress recorded. -/
theorem getCurrentData_marker_witness :
    GroundLayerState.getCurrentData glExact = some ⟨sampleA, false, false, none⟩ ∧
    GroundLayerState.getCurrentData glInterp =
      some ⟨{ ValueInterpolator.interpolate sampleA sampleC
            (((glInterp.currentTimestamp : ℚ) - (sampleA.timestamp : ℚ)) /
              ((sampleC.timestamp : ℚ) - (sampleA.timestamp : ℚ))) with
            timestamp := glInterp.currentTimestamp },
          true, false,
          some (((glInterp.currentTimestamp : ℚ) - (sampleA.timestamp : ℚ)) /
            ((sampleC.timestamp : ℚ) - (sampleA.timestamp : ℚ)))⟩ :=
  ⟨(getCurrentData_marker glExact).1 sampleA rfl,
   (getCurrentData_marker glInterp).2.1 sampleA sampleC rfl rfl rfl⟩
